import Mathlib

/-!
Verification development for the clinic chat-assistant repository
(two generations in source: the multi-branch bot in main.py
and the Hakeem bot in medical_bot_complete.py).

Shallow embedding conventions:
  - Python strings are Lean Strings; slicing and truthiness are modelled
    by the py* helpers below, operating on the underlying character list.
  - Each outbound HTTP call is modelled by an outcome value describing
    what the environment did (success body, HTTP error, timeout, other
    exception); the provider-client functions map outcomes to the
    Optional[str] the Python function returns.
  - SQLite tables are lists of row structures; INSERT OR REPLACE on a
    column with a UNIQUE constraint is modelled as removing every row
    with the same key and appending the fresh row (surrogate rowids are
    not modelled; columns omitted from the INSERT take their defaults).
  - Fallible DB operations take an explicit success flag standing for
    the absence of a storage exception in the Python try block.
  - Telegram sends, logging, and typing indicators are effect-free in
    the claims under study and are dropped from the model; the reply
    text that each handler sends is returned as data.
-/

/-- Truthiness of a Python Optional[str]: None and the empty string are
falsy, every other string is truthy. -/
def pyTruthy : Option String → Bool
  | none => false
  | some s => !(s == "")

/-- Length of a Python string in code points. -/
def pyLen (s : String) : Nat := s.data.length

/-- Python slice s[:n] by code points. -/
def pySlice (s : String) (n : Nat) : String := ⟨s.data.take n⟩

/-- Python test "not text or len(text.strip()) == 0": true exactly when
every character of the string is whitespace (including the empty string). -/
def pyBlank (s : String) : Bool := s.data.all Char.isWhitespace

/-- Terminal conversation state; boundary constant of the messaging SDK
(ConversationHandler.END). -/
def ConversationHandler_END : Int := -1

/-- Conversation state constant from main.py. -/
def STATE_BOOKING_START : Int := 1

/-- Conversation state constant from main.py. -/
def STATE_BOOKING_NAME : Int := 2

/-- Conversation state constant from main.py. -/
def STATE_BOOKING_PHONE : Int := 3

/-- Conversation state constant from main.py. -/
def STATE_BOOKING_BRANCH : Int := 4

/-- Conversation state constant from main.py. -/
def STATE_BOOKING_DATE : Int := 5

/-- Conversation state constant from main.py. -/
def STATE_BOOKING_CONFIRM : Int := 6

/-- Conversation state constant from main.py. -/
def STATE_CHAT_INPUT : Int := 7

/-- Conversation state constant from main.py. -/
def STATE_CHAT_MODE : Int := 8

/-- Outcome of one HTTPS call to the fast-chat (Groq) provider, as seen
by the calling Python function. -/
inductive GroqOutcome where
  | success (content : String)
  | httpError (code : Nat)
  | timeout
  | netError (msg : String)
deriving DecidableEq, Repr

/-- Outcome of one HTTPS call to the deep-analysis (Gemini) provider.
The noCandidates case is an HTTP 200 body whose candidates list is
missing or empty. -/
inductive GeminiOutcome where
  | success (text : String)
  | noCandidates
  | httpError (code : Nat)
  | timeout
  | netError (msg : String)
deriving DecidableEq, Repr

/-- GroqAPI.chat from main.py: HTTP success yields the first choice
content; a timeout yields the canned English message; raise_for_status
on a non-2xx reply and any other exception are caught and yield None. -/
def GroqAPI.chat : GroqOutcome → Option String
  | .success content => some content
  | .timeout => some "Sorry, the response is taking too long. Please try again."
  | .httpError _ => none
  | .netError _ => none

/-- GeminiAPI.analyze from main.py: HTTP success with candidates yields
the first candidate text; an empty candidate list yields None; a timeout
yields the canned English message; any other exception yields None. -/
def GeminiAPI.analyze : GeminiOutcome → Option String
  | .success text => some text
  | .noCandidates => none
  | .timeout => some "Analysis is taking too long. Please try again."
  | .httpError _ => none
  | .netError _ => none

/-- Row of the patients table of main.py (schema in
PatientDatabase.init_database); the AUTOINCREMENT surrogate id is not
modelled. Timestamps are abstract ticks. -/
structure PatientRow where
  telegram_id : Int
  name : String
  phone : String
  branch : String
  appointment_date : Option String
  created_at : Nat
  updated_at : Nat
deriving DecidableEq, Repr

/-- PatientDatabase.init_database from main.py: on a schema-creation
error the except block logs and re-raises, so the error propagates to
the caller; otherwise the schema is created and the call returns. -/
def PatientDatabase.init_database (schemaResult : Except String Unit) : Except String Unit :=
  match schemaResult with
  | .ok _ => .ok ()
  | .error e => .error e

/-- PatientDatabase.add_patient from main.py: INSERT OR REPLACE keyed on
the UNIQUE telegram_id column replaces any existing row for that id; the
omitted created_at column takes its CURRENT_TIMESTAMP default and
updated_at is set to CURRENT_TIMESTAMP. The ok flag stands for the try
block raising no storage exception; on an exception the function returns
False and the table is unchanged. -/
def PatientDatabase.add_patient (ok : Bool) (table : List PatientRow) (telegram_id : Int)
    (name phone branch : String) (appointment_date : Option String) (now : Nat) :
    Bool × List PatientRow :=
  if ok then
    (true, (table.filter fun r => !(r.telegram_id == telegram_id)) ++
      [⟨telegram_id, name, phone, branch, appointment_date, now, now⟩])
  else
    (false, table)

/-- PatientDatabase.get_patient from main.py: SELECT by telegram_id,
fetchone, returning the first matching row or None. -/
def PatientDatabase.get_patient (table : List PatientRow) (telegram_id : Int) :
    Option PatientRow :=
  table.find? fun r => r.telegram_id == telegram_id

/-- Row of the chat_history table of main.py. -/
structure ChatRow where
  telegram_id : Int
  message : String
  response : String
  api_used : String
deriving DecidableEq, Repr

/-- PatientDatabase.save_chat from main.py: appends one chat_history
row; the ok flag stands for the try block raising no storage exception
(errors are logged and swallowed, leaving the table unchanged). -/
def PatientDatabase.save_chat (ok : Bool) (chats : List ChatRow) (telegram_id : Int)
    (message response api_used : String) : List ChatRow :=
  if ok then chats ++ [⟨telegram_id, message, response, api_used⟩] else chats

/-- Per-conversation booking fields collected by the main.py dialogue
(context.user_data of the booking conversation). -/
structure BookingData where
  name : Option String
  phone : Option String
  branch : Option String
  date : Option String
deriving DecidableEq, Repr

/-- Booking dictionary as initialized at the start of the dialogue. -/
def emptyBooking : BookingData := ⟨none, none, none, none⟩

/-- MedicalBot.booking_get_name from main.py: stores the raw input as
the name and moves to the phone state; the function performs no
validation of any kind (the prompt it sends is a constant, omitted). -/
def MedicalBot.booking_get_name (b : BookingData) (text : String) : BookingData × Int :=
  ({ b with name := some text }, STATE_BOOKING_PHONE)

/-- MedicalBot.booking_get_phone from main.py: stores the raw input as
the phone and moves to the branch state; the function performs no
validation of any kind (the menu it sends is a constant, omitted). -/
def MedicalBot.booking_get_phone (b : BookingData) (text : String) : BookingData × Int :=
  ({ b with phone := some text }, STATE_BOOKING_BRANCH)

/-- Confirmation message of main.py booking_confirm on a successful
save. -/
def mainBookingConfirmedMsg : String :=
  "✅ **Booking Confirmed!**\n\nYour appointment request has been saved. The doctor\x27s office will contact you shortly to confirm the exact time.\n\n📞 If you don\x27t receive a call within 24 hours, please contact us:\nCairo: +20XXXXXXXXX\nSherbin: +20XXXXXXXXX"

/-- Result of one step of MedicalBot.booking_confirm: the patients table
after the step, the message sent to the user, and the next conversation
state. -/
structure ConfirmResult where
  patients : List PatientRow
  reply : String
  next : Int
deriving DecidableEq, Repr

/-- MedicalBot.booking_confirm from main.py: only the exact text of the
confirm button saves the booking; every other input sends the cancelled
message; the conversation always ends. -/
def MedicalBot.booking_confirm (user_id : Int) (b : BookingData) (text : String)
    (saveOk : Bool) (patients : List PatientRow) (now : Nat) : ConfirmResult :=
  if text == "✅ Confirm" then
    let res := PatientDatabase.add_patient saveOk patients user_id
      (b.name.getD "") (b.phone.getD "") (b.branch.getD "") b.date now
    if res.1 then
      { patients := res.2, reply := mainBookingConfirmedMsg, next := ConversationHandler_END }
    else
      { patients := res.2, reply := "❌ Error saving booking. Please try again.",
        next := ConversationHandler_END }
  else
    { patients := patients, reply := "❌ Booking cancelled.", next := ConversationHandler_END }

/-- Chat mode selected in the main.py chat dialogue (user_data value
with default groq). -/
inductive ChatMode where
  | groq
  | gemini
deriving DecidableEq, Repr

/-- Provider call made by MedicalBot.handle_chat for the selected mode. -/
def chatModeResponse (mode : ChatMode) (g : GroqOutcome) (gm : GeminiOutcome) : Option String :=
  match mode with
  | .groq => GroqAPI.chat g
  | .gemini => GeminiAPI.analyze gm

/-- Provider label used by MedicalBot.handle_chat for the selected mode. -/
def chatModeLabel : ChatMode → String
  | .groq => "Groq"
  | .gemini => "Gemini"

/-- Response shaping of MedicalBot.handle_chat in main.py: the reply is
sliced to its first 1000 characters, a truncation marker is appended
when the reply was longer, and a provider header is prefixed. -/
def mainShape (api_used response : String) : String :=
  let response_text := pySlice response 1000
  let response_text :=
    if pyLen response > 1000 then response_text ++ "\n\n...(truncated)" else response_text
  "🤖 **" ++ api_used ++ " Response**:\n\n" ++ response_text

/-- MedicalBot.handle_chat from main.py: fetches the patient record,
calls the provider selected by the chat mode, and on a truthy reply
saves a chat_history row only when the patient record exists, then sends
the shaped reply; on a falsy reply it sends the error message and writes
nothing. Returns the chat_history table after the step and the reply
text (the trailing menu prompt and the returned conversation state,
which is always STATE_CHAT_INPUT, are omitted). -/
def MedicalBot.handle_chat (patients : List PatientRow) (chats : List ChatRow)
    (user_id : Int) (message : String) (mode : ChatMode)
    (g : GroqOutcome) (gm : GeminiOutcome) (saveOk : Bool) : List ChatRow × String :=
  let patient := PatientDatabase.get_patient patients user_id
  let response := chatModeResponse mode g gm
  let api_used := chatModeLabel mode
  if pyTruthy response then
    let resp := response.getD ""
    let chats2 :=
      if patient.isSome then PatientDatabase.save_chat saveOk chats user_id message resp api_used
      else chats
    (chats2, mainShape api_used resp)
  else
    (chats, "❌ Error getting response. Please try again.")

/-- Row of the users table of medical_bot_complete.py (schema in
HakeemDatabase.init_database); the INTEGER PRIMARY KEY surrogate id is
not modelled. The created_at column holds its CURRENT_TIMESTAMP default
from the moment the row was (re-)inserted. -/
structure UserRow where
  telegram_id : Int
  first_name : String
  created_at : Nat
deriving DecidableEq, Repr

/-- Row of the chats table of medical_bot_complete.py. -/
structure HakeemChatRow where
  telegram_id : Int
  user_message : String
  bot_response : String
  engine : String
deriving DecidableEq, Repr

/-- Persistent state of the Hakeem generation: the users and chats
tables of hakeem_patients.db. -/
structure HakeemState where
  users : List UserRow
  chats : List HakeemChatRow
deriving DecidableEq, Repr

/-- HakeemDatabase.init_database from medical_bot_complete.py: a
schema-creation error is caught by the except block, logged, and NOT
re-raised, so the call always returns normally. -/
def HakeemDatabase.init_database (schemaResult : Except String Unit) : Except String Unit :=
  match schemaResult with
  | .ok _ => .ok ()
  | .error _ => .ok ()

/-- HakeemDatabase.add_user from medical_bot_complete.py: INSERT OR
REPLACE INTO users (telegram_id, first_name) keyed on the UNIQUE
telegram_id column replaces any existing row for that id wholesale; the
omitted created_at column takes its CURRENT_TIMESTAMP default. The ok
flag stands for the try block raising no storage exception; on an
exception the error is logged and swallowed and the table is left
unchanged. -/
def HakeemDatabase.add_user (ok : Bool) (users : List UserRow) (user_id : Int)
    (name : String) (now : Nat) : List UserRow :=
  if ok then (users.filter fun r => !(r.telegram_id == user_id)) ++ [⟨user_id, name, now⟩]
  else users

/-- HakeemDatabase.save_chat from medical_bot_complete.py: appends one
chats row; the ok flag stands for the try block raising no storage
exception (errors are logged and swallowed). -/
def HakeemDatabase.save_chat (ok : Bool) (chats : List HakeemChatRow) (user_id : Int)
    (msg response engine : String) : List HakeemChatRow :=
  if ok then chats ++ [⟨user_id, msg, response, engine⟩] else chats

/-- Provider attempted by the Hakeem engine. -/
inductive Provider where
  | groq
  | gemini
deriving DecidableEq, Repr

/-- Result of MedicalEngine.respond: the Optional reply text, the engine
label of the returned pair, and the providers attempted in order. -/
structure RespondResult where
  text : Option String
  engine : String
  attempts : List Provider
deriving DecidableEq, Repr

/-- Function _groq_response of MedicalEngine in medical_bot_complete.py:
None when the key is unset; the first choice content on HTTP 200; None
on a non-200 status, a timeout, or any other exception. -/
def MedicalEngine.groq_response (hasKey : Bool) (o : GroqOutcome) : Option String :=
  if !hasKey then none
  else
    match o with
    | .success content => some content
    | .httpError _ => none
    | .timeout => none
    | .netError _ => none

/-- Function _gemini_response of MedicalEngine in
medical_bot_complete.py: None when the key is unset; the first candidate
text on HTTP 200 with candidates; None on an empty candidate list, a
non-200 status, a timeout, or any other exception. -/
def MedicalEngine.gemini_response (hasKey : Bool) (o : GeminiOutcome) : Option String :=
  if !hasKey then none
  else
    match o with
    | .success text => some text
    | .noCandidates => none
    | .httpError _ => none
    | .timeout => none
    | .netError _ => none

/-- MedicalEngine.respond from medical_bot_complete.py: try Groq first;
if its result is truthy return it labelled Groq; otherwise try Gemini;
if truthy return it labelled Gemini; otherwise return the None sentinel
labelled None. The attempts field records the providers called, in
order. -/
def MedicalEngine.respond (groqKey geminiKey : Bool) (g : GroqOutcome) (gm : GeminiOutcome) :
    RespondResult :=
  let r1 := MedicalEngine.groq_response groqKey g
  if pyTruthy r1 then
    { text := r1, engine := "Groq", attempts := [Provider.groq] }
  else
    let r2 := MedicalEngine.gemini_response geminiKey gm
    if pyTruthy r2 then
      { text := r2, engine := "Gemini", attempts := [Provider.groq, Provider.gemini] }
    else
      { text := none, engine := "None", attempts := [Provider.groq, Provider.gemini] }

/-- Arabic api_error message of medical_bot_complete.py, sent when both
engines yield nothing. -/
def ARABIC_api_error : String :=
  "⚠️ خدمة المحرك معطلة حالياً. يرجى الانتظار قليلاً والمحاولة مجدداً."

/-- Arabic empty_input message of medical_bot_complete.py. -/
def ARABIC_empty_input : String := "❌ الرجاء كتابة سؤال حقيقي."

/-- Response shaping of HakeemBot.handle_message: the reply is sliced to
its first 2000 characters, an Arabic truncation marker is appended when
the reply was longer, and the Hakeem header is prefixed. -/
def hakeemShape (response : String) : String :=
  let response_text := pySlice response 2000
  let response_text :=
    if pyLen response > 2000 then response_text ++ "\n\n... (تم قص النص)" else response_text
  "🤖 **حكيم يقول:**\n\n" ++ response_text

/-- Result of HakeemBot.handle_message: the database state after the
step and the reply text sent to the user. -/
structure HandleResult where
  state : HakeemState
  reply : String
deriving DecidableEq, Repr

/-- HakeemBot.handle_message from medical_bot_complete.py: upserts the
sender into the users table first; replies with the empty_input message
on a blank text; otherwise calls MedicalEngine.respond, and on a truthy
reply saves a chats row and sends the shaped reply, else sends the
api_error message. The thinking-message placeholder and its deletion
are effect-free here and omitted; respond never raises, so the
handler-level timeout and exception branches are unreachable. The addOk
and saveOk flags stand for the add_user and save_chat writes raising no
storage exception. -/
def HakeemBot.handle_message (st : HakeemState) (user_id : Int) (first_name text : String)
    (groqKey geminiKey : Bool) (g : GroqOutcome) (gm : GeminiOutcome)
    (addOk saveOk : Bool) (now : Nat) : HandleResult :=
  let users := HakeemDatabase.add_user addOk st.users user_id first_name now
  if pyBlank text then
    { state := { users := users, chats := st.chats }, reply := ARABIC_empty_input }
  else
    let r := MedicalEngine.respond groqKey geminiKey g gm
    if pyTruthy r.text then
      let response := r.text.getD ""
      let chats := HakeemDatabase.save_chat saveOk st.chats user_id text response r.engine
      { state := { users := users, chats := chats }, reply := hakeemShape response }
    else
      { state := { users := users, chats := st.chats }, reply := ARABIC_api_error }

/-- HakeemBot.start_command from medical_bot_complete.py: upserts the
sender into the users table and sends the welcome message (whose text is
irrelevant to the claims and abbreviated to its key). Returns the users
table after the step and the reply key. -/
def HakeemBot.start_command (users : List UserRow) (user_id : Int) (name : String)
    (addOk : Bool) (now : Nat) : List UserRow × String :=
  (HakeemDatabase.add_user addOk users user_id name now, "welcome")

/-- Modelled from the spec: CollectPhone validation described in §4.7
("strip spaces and dashes, count digit characters") — this validation
exists in no source file under study; the definition follows the words
of the spec and is used only to exhibit the divergence from
MedicalBot.booking_get_phone. -/
def spec_digit_count (s : String) : Nat :=
  ((s.data.filter fun c => !(c == ' ' || c == '-')).filter Char.isDigit).length

/-- Uniqueness invariant of a users table: no two rows share a
telegram_id. -/
def UsersUnique (l : List UserRow) : Prop :=
  l.Pairwise fun a b => a.telegram_id ≠ b.telegram_id

/-- Concrete 2001-character engine reply used to exhibit the truncation
behavior. -/
def bigReply : String := ⟨List.replicate 2001 'a'⟩

/-- Concrete patient row used in counterexamples. -/
def samplePatient : PatientRow :=
  ⟨5, "Ali", "01121173", "cairo", some "ASAP", 0, 0⟩

/-- Concrete filled booking used in counterexamples. -/
def sampleBooking : BookingData :=
  ⟨some "Ali", some "01121173", some "cairo", some "ASAP"⟩

/-- Helper: after filtering away every row with the given key, no row
with that key remains. -/
theorem list_filter_key_nil {α : Type} (key : α → Int) (k : Int) (l : List α) :
    (l.filter fun r => !(key r == k)).filter (fun r => key r == k) = [] := by
  induction l with
  | nil => rfl
  | cons a t ih =>
      by_cases h : key a = k <;> simp [List.filter_cons, h, ih]

/-- Helper: removing every row with the given key and appending one
fresh row with that key leaves that row as the only one with the key. -/
theorem list_filter_key_replace {α : Type} (key : α → Int) (l : List α) (k : Int) (x : α)
    (hx : key x = k) :
    ((l.filter fun r => !(key r == k)) ++ [x]).filter (fun r => key r == k) = [x] := by
  rw [List.filter_append, list_filter_key_nil]
  simp [List.filter_cons, hx]

/-- Helper: the replace-by-key operation preserves key-distinctness. -/
theorem pairwise_key_replace {α : Type} (key : α → Int) (l : List α) (k : Int) (x : α)
    (hx : key x = k) (h : l.Pairwise fun a b => key a ≠ key b) :
    ((l.filter fun r => !(key r == k)) ++ [x]).Pairwise fun a b => key a ≠ key b := by
  apply List.pairwise_append.2
  refine ⟨h.sublist (List.filter_sublist _), List.pairwise_singleton _ _, ?_⟩
  intro a ha b hb
  have hb1 : b = x := by simpa using hb
  subst hb1
  have ha1 := List.of_mem_filter ha
  simp only [Bool.not_eq_true', beq_eq_false_iff_ne, ne_eq] at ha1
  rw [hx]
  exact ha1

/-- Helper simp lemma: the None sentinel is falsy. -/
theorem pyTruthy_none : pyTruthy none = false := rfl

/-- C1: in the Hakeem generation, MedicalEngine.respond attempts Groq
first, attempts Gemini exactly when the Groq attempt yields no truthy
text, attempts each provider at most once, and when both yield nothing
returns the None sentinel, upon which HakeemBot.handle_message sends the
generic Arabic apology message. -/
theorem claim_C1_fallback_policy (groqKey geminiKey : Bool) (g : GroqOutcome)
    (gm : GeminiOutcome) (st : HakeemState) (uid : Int) (fn text : String)
    (addOk saveOk : Bool) (now : Nat) (htext : pyBlank text = false) :
    ((MedicalEngine.respond groqKey geminiKey g gm).attempts.head? = some Provider.groq) ∧
    (Provider.gemini ∈ (MedicalEngine.respond groqKey geminiKey g gm).attempts ↔
      pyTruthy (MedicalEngine.groq_response groqKey g) = false) ∧
    ((MedicalEngine.respond groqKey geminiKey g gm).attempts.count Provider.groq = 1) ∧
    ((MedicalEngine.respond groqKey geminiKey g gm).attempts.count Provider.gemini ≤ 1) ∧
    (pyTruthy (MedicalEngine.groq_response groqKey g) = false →
      pyTruthy (MedicalEngine.gemini_response geminiKey gm) = false →
        (MedicalEngine.respond groqKey geminiKey g gm).text = none ∧
        (HakeemBot.handle_message st uid fn text groqKey geminiKey g gm addOk saveOk
            now).reply = ARABIC_api_error) := by
  unfold HakeemBot.handle_message MedicalEngine.respond
  by_cases h1 : pyTruthy (MedicalEngine.groq_response groqKey g) <;>
    by_cases h2 : pyTruthy (MedicalEngine.gemini_response geminiKey gm) <;>
      simp [h1, h2, htext, List.count_cons, pyTruthy_none]

/-- Witness for C1 at a concrete input: with no provider keys set, both
engines yield nothing and the caller sends the Arabic apology. -/
theorem claim_C1_witness :
    (HakeemBot.handle_message ⟨[], []⟩ 1 "A" "hi" false false GroqOutcome.timeout
        GeminiOutcome.timeout true true 0).reply = ARABIC_api_error :=
  ((claim_C1_fallback_policy false false GroqOutcome.timeout GeminiOutcome.timeout
      ⟨[], []⟩ 1 "A" "hi" true true 0 (by decide)).2.2.2.2 rfl rfl).2

/-- C2: two successive successful add_patient calls for the same
telegram id with different phone numbers leave exactly one row for that
id, holding the second phone. -/
theorem claim_C2_upsert (table : List PatientRow) (t : Int) (n1 p1 b1 : String)
    (d1 : Option String) (now1 : Nat) (n2 p2 b2 : String) (d2 : Option String) (now2 : Nat)
    (hphones : p1 ≠ p2) :
    (PatientDatabase.add_patient true table t n1 p1 b1 d1 now1).1 = true ∧
    (PatientDatabase.add_patient true
        (PatientDatabase.add_patient true table t n1 p1 b1 d1 now1).2 t n2 p2 b2 d2 now2).1
      = true ∧
    ((PatientDatabase.add_patient true
        (PatientDatabase.add_patient true table t n1 p1 b1 d1 now1).2 t n2 p2 b2 d2 now2).2.filter
        fun r => r.telegram_id == t) = [⟨t, n2, p2, b2, d2, now2, now2⟩] ∧
    ∀ r ∈ (PatientDatabase.add_patient true
        (PatientDatabase.add_patient true table t n1 p1 b1 d1 now1).2 t n2 p2 b2 d2 now2).2,
      r.telegram_id = t → r.phone = p2 := by
  refine ⟨rfl, rfl, ?_, ?_⟩
  · show ((_ : List PatientRow).filter _ ++ _).filter _ = _
    exact list_filter_key_replace PatientRow.telegram_id _ t _ rfl
  · intro r hr hrt
    rcases List.mem_append.1 hr with h | h
    · have hpred := List.of_mem_filter h
      simp [hrt] at hpred
    · have hr1 : r = ⟨t, n2, p2, b2, d2, now2, now2⟩ := by simpa using h
      subst hr1
      rfl

/-- Witness for C2 at a concrete input: booking id 5 twice with
different phones leaves one row holding the second phone. -/
theorem claim_C2_witness :
    ((PatientDatabase.add_patient true
        (PatientDatabase.add_patient true [] 5 "Ali" "0100" "cairo" none 0).2
        5 "Ali" "0111" "cairo" none 1).2.filter fun r => r.telegram_id == 5) =
      [⟨5, "Ali", "0111", "cairo", none, 1, 1⟩] :=
  (claim_C2_upsert [] 5 "Ali" "0100" "cairo" none 0 "Ali" "0111" "cairo" none 1
    (by decide)).2.2.1

/-- C3 counterexample: the input consisting of the single character 1
has fewer than 8 digit characters under the validation described by the
spec, yet MedicalBot.booking_get_phone stores it as the phone and moves
the dialogue to the branch state instead of re-prompting in the phone
state. -/
theorem claim_C3_counterexample :
    spec_digit_count "1" < 8 ∧
    MedicalBot.booking_get_phone emptyBooking "1" =
      ({ emptyBooking with phone := some "1" }, STATE_BOOKING_BRANCH) ∧
    STATE_BOOKING_BRANCH ≠ STATE_BOOKING_PHONE := by
  refine ⟨by decide, rfl, by decide⟩

/-- C3 amended: in the phone-collection state of the main.py booking
dialogue, every input is stored verbatim as the phone, no digit-count
validation is performed, and the dialogue always advances to the branch
state. -/
theorem claim_C3_amended (b : BookingData) (text : String) :
    (MedicalBot.booking_get_phone b text).1.phone = some text ∧
    (MedicalBot.booking_get_phone b text).2 = STATE_BOOKING_BRANCH ∧
    STATE_BOOKING_BRANCH ≠ STATE_BOOKING_PHONE :=
  ⟨rfl, rfl, by decide⟩

/-- C4 counterexample: the single-character input x is shorter than 2
characters, yet MedicalBot.booking_get_name stores it as the name and
moves the dialogue to the phone state instead of re-prompting in the
name state. -/
theorem claim_C4_counterexample :
    pyLen "x" < 2 ∧
    MedicalBot.booking_get_name emptyBooking "x" =
      ({ emptyBooking with name := some "x" }, STATE_BOOKING_PHONE) ∧
    STATE_BOOKING_PHONE ≠ STATE_BOOKING_NAME := by
  refine ⟨by decide, rfl, by decide⟩

/-- C4 amended: in the name-collection state of the main.py booking
dialogue, every input is stored verbatim as the name, no length
validation is performed, and the dialogue always advances to the phone
state. -/
theorem claim_C4_amended (b : BookingData) (text : String) :
    (MedicalBot.booking_get_name b text).1.name = some text ∧
    (MedicalBot.booking_get_name b text).2 = STATE_BOOKING_PHONE ∧
    STATE_BOOKING_PHONE ≠ STATE_BOOKING_NAME :=
  ⟨rfl, rfl, by decide⟩

/-- C5 counterexample: the input maybe, which matches neither vocabulary
of the claim, is not re-prompted: MedicalBot.booking_confirm sends the
cancelled message and terminates the dialogue; and the confirming word
ok of the claim likewise cancels instead of saving the booking. -/
theorem claim_C5_counterexample :
    (MedicalBot.booking_confirm 7 sampleBooking "maybe" true [] 0).reply =
      "❌ Booking cancelled." ∧
    (MedicalBot.booking_confirm 7 sampleBooking "maybe" true [] 0).next =
      ConversationHandler_END ∧
    ConversationHandler_END ≠ STATE_BOOKING_CONFIRM ∧
    (MedicalBot.booking_confirm 7 sampleBooking "ok" true [] 0).patients =
      ([] : List PatientRow) ∧
    (MedicalBot.booking_confirm 7 sampleBooking "ok" true [] 0).reply =
      "❌ Booking cancelled." := by
  decide

/-- C5 amended: the confirmation state of the main.py booking dialogue
matches only the exact button text of the confirm button; that input
saves the booking via add_patient (confirmation message on a successful
save); every other input, in any case and language, sends the cancelled
message and leaves the patients table untouched; the dialogue always
terminates and never re-prompts. -/
theorem claim_C5_amended (user_id : Int) (b : BookingData) (text : String)
    (saveOk : Bool) (patients : List PatientRow) (now : Nat) :
    (MedicalBot.booking_confirm user_id b text saveOk patients now).next =
      ConversationHandler_END ∧
    (text ≠ "✅ Confirm" →
      (MedicalBot.booking_confirm user_id b text saveOk patients now).patients = patients ∧
      (MedicalBot.booking_confirm user_id b text saveOk patients now).reply =
        "❌ Booking cancelled.") ∧
    (text = "✅ Confirm" →
      (MedicalBot.booking_confirm user_id b text saveOk patients now).patients =
        (PatientDatabase.add_patient saveOk patients user_id (b.name.getD "")
          (b.phone.getD "") (b.branch.getD "") b.date now).2 ∧
      (saveOk = true →
        (MedicalBot.booking_confirm user_id b text saveOk patients now).reply =
          mainBookingConfirmedMsg)) := by
  unfold MedicalBot.booking_confirm
  by_cases h : text = "✅ Confirm" <;> by_cases hs : saveOk <;>
    simp [h, hs, PatientDatabase.add_patient]

/-- Witness for C5 amended at a concrete input: the unrelated input
hello cancels and leaves the table empty. -/
theorem claim_C5_witness :
    (MedicalBot.booking_confirm 7 sampleBooking "hello" true [] 0).patients =
      ([] : List PatientRow) :=
  ((claim_C5_amended 7 sampleBooking "hello" true [] 0).2.1 (by decide)).1

/-- C6 counterexample: in the Hakeem generation a schema-creation error
is caught and logged, and HakeemDatabase.init_database returns normally
instead of re-raising, so startup is not aborted. -/
theorem claim_C6_counterexample :
    HakeemDatabase.init_database (Except.error "schema creation failed") = Except.ok () := rfl

/-- C6 amended: in the multi-branch generation a schema-creation error
is re-raised out of PatientDatabase.init_database, aborting startup; in
the Hakeem generation HakeemDatabase.init_database absorbs the error
into a log line and returns normally. -/
theorem claim_C6_amended (e : String) :
    PatientDatabase.init_database (Except.error e) = Except.error e ∧
    PatientDatabase.init_database (Except.ok ()) = Except.ok () ∧
    HakeemDatabase.init_database (Except.error e) = Except.ok () ∧
    HakeemDatabase.init_database (Except.ok ()) = Except.ok () :=
  ⟨rfl, rfl, rfl, rfl⟩

/-- C7 counterexample: in the Hakeem generation a Groq timeout makes
the engine return the None failure sentinel, not a canned message. -/
theorem claim_C7_counterexample :
    MedicalEngine.groq_response true GroqOutcome.timeout = none := rfl

/-- C7 amended: in the multi-branch generation GroqAPI.chat returns a
canned English taking-too-long message on a timeout, treated as an
answer by its caller; in the Hakeem generation a Groq timeout yields the
None sentinel and the engine falls back to Gemini. -/
theorem claim_C7_amended (hasKey : Bool) (gm : GeminiOutcome) :
    GroqAPI.chat GroqOutcome.timeout =
      some "Sorry, the response is taking too long. Please try again." ∧
    MedicalEngine.groq_response hasKey GroqOutcome.timeout = none ∧
    Provider.gemini ∈ (MedicalEngine.respond hasKey true GroqOutcome.timeout gm).attempts := by
  refine ⟨rfl, ?_, ?_⟩
  · cases hasKey <;> rfl
  · have hnone : MedicalEngine.groq_response hasKey GroqOutcome.timeout = none := by
      cases hasKey <;> rfl
    by_cases h2 : pyTruthy (MedicalEngine.gemini_response true gm) <;>
      simp [MedicalEngine.respond, hnone, h2, pyTruthy_none]

/-- Helper: length of an appended string is the sum of the lengths. -/
theorem pyLen_append (a b : String) : pyLen (a ++ b) = pyLen a + pyLen b := by
  cases a with
  | mk la =>
      cases b with
      | mk lb =>
          show (la ++ lb).length = la.length + lb.length
          exact List.length_append la lb

/-- Helper: length of a Python slice. -/
theorem pyLen_pySlice (s : String) (n : Nat) : pyLen (pySlice s n) = min n (pyLen s) := by
  simp [pyLen, pySlice, List.length_take]

/-- C8 counterexample: a 2001-character engine reply in the Hakeem
generation is shaped into an outbound message that itself exceeds the
2000-character threshold (header plus truncated body plus marker), and
that shaped text is exactly what handle_message sends. -/
theorem claim_C8_counterexample :
    pyLen bigReply = 2001 ∧
    2000 < pyLen (hakeemShape bigReply) ∧
    (HakeemBot.handle_message ⟨[], []⟩ 1 "A" "hi" true true (GroqOutcome.success bigReply)
        GeminiOutcome.timeout true true 0).reply = hakeemShape bigReply := by
  have hlen : pyLen bigReply = 2001 := by
    show (List.replicate 2001 'a').length = 2001
    rw [List.length_replicate]
  have hcond : pyLen bigReply > 2000 := by rw [hlen]; decide
  have hne : (bigReply == "") = false := by decide
  refine ⟨hlen, ?_, ?_⟩
  · simp only [hakeemShape, hcond, if_true]
    rw [pyLen_append, pyLen_append, pyLen_pySlice, hlen]
    decide
  · simp [HakeemBot.handle_message, MedicalEngine.respond, MedicalEngine.groq_response,
      pyTruthy, hne, show pyBlank "hi" = false by decide]

/-- C8 amended: each generation truncates the reply body to its
threshold (1000 in the multi-branch generation, 2000 in Hakeem) and
appends a continuation marker, but the outbound message adds a fixed
header, so it may exceed the bare threshold by the header and marker
lengths; the truncated body itself never exceeds the threshold. -/
theorem claim_C8_amended (api r : String) :
    pyLen (pySlice r 2000) ≤ 2000 ∧
    pyLen (pySlice r 1000) ≤ 1000 ∧
    (pyLen r > 2000 →
      hakeemShape r =
        "🤖 **حكيم يقول:**\n\n" ++ (pySlice r 2000 ++ "\n\n... (تم قص النص)")) ∧
    (pyLen r > 1000 →
      mainShape api r =
        "🤖 **" ++ api ++ " Response**:\n\n" ++ (pySlice r 1000 ++ "\n\n...(truncated)")) ∧
    pyLen (hakeemShape r) ≤
      pyLen "🤖 **حكيم يقول:**\n\n" + 2000 + pyLen "\n\n... (تم قص النص)" ∧
    pyLen (mainShape api r) ≤
      pyLen ("🤖 **" ++ api ++ " Response**:\n\n") + 1000 + pyLen "\n\n...(truncated)" := by
  have h2000 : pyLen (pySlice r 2000) ≤ 2000 := by
    rw [pyLen_pySlice]; exact Nat.min_le_left _ _
  have h1000 : pyLen (pySlice r 1000) ≤ 1000 := by
    rw [pyLen_pySlice]; exact Nat.min_le_left _ _
  refine ⟨h2000, h1000, ?_, ?_, ?_, ?_⟩
  · intro h
    simp [hakeemShape, h]
  · intro h
    simp [mainShape, h, String.append_assoc]
  · by_cases h : pyLen r > 2000 <;>
      simp only [hakeemShape, h, if_true, if_false] <;>
      rw [pyLen_append] <;> first
        | (rw [pyLen_append]; omega)
        | omega
  · by_cases h : pyLen r > 1000 <;>
      simp only [mainShape, h, if_true, if_false] <;>
      rw [pyLen_append, pyLen_append, pyLen_append] <;> first
        | (rw [pyLen_append]; omega)
        | omega

/-- Witness for C8 amended at a concrete input: the 2001-character reply
is shaped into header, 2000-character slice, and marker. -/
theorem claim_C8_witness :
    hakeemShape bigReply =
      "🤖 **حكيم يقول:**\n\n" ++ (pySlice bigReply 2000 ++ "\n\n... (تم قص النص)") :=
  (claim_C8_amended "Groq" bigReply).2.2.1 (by
    show 2000 < (List.replicate 2001 'a').length
    rw [List.length_replicate]
    decide)

/-- C9 counterexample: the sender has a Patient record, yet no
chat-history row is written because the provider yielded no reply; the
claimed if-and-only-if with record existence fails, the message still
being answered with the error text. -/
theorem claim_C9_counterexample :
    (PatientDatabase.get_patient [samplePatient] 5).isSome = true ∧
    (MedicalBot.handle_chat [samplePatient] [] 5 "hello" ChatMode.groq
        (GroqOutcome.httpError 500) GeminiOutcome.timeout true).1 = ([] : List ChatRow) ∧
    (MedicalBot.handle_chat [samplePatient] [] 5 "hello" ChatMode.groq
        (GroqOutcome.httpError 500) GeminiOutcome.timeout true).2 =
      "❌ Error getting response. Please try again." := by
  decide

/-- C9 amended: in the multi-branch generation a chat-history row is
written if and only if the sender has a Patient record AND the selected
provider produced a truthy reply; senders without a record are still
answered (shaped reply or error text) but never persisted; in the Hakeem
generation, where the user row is upserted at the start of handling, a
chats row is written for a non-blank message if and only if the engine
produced a truthy reply. -/
theorem claim_C9_amended (patients : List PatientRow) (chats : List ChatRow) (uid : Int)
    (message : String) (mode : ChatMode) (g : GroqOutcome) (gm : GeminiOutcome) :
    ((MedicalBot.handle_chat patients chats uid message mode g gm true).1.length =
        chats.length + 1 ↔
      ((PatientDatabase.get_patient patients uid).isSome = true ∧
        pyTruthy (chatModeResponse mode g gm) = true)) ∧
    ((PatientDatabase.get_patient patients uid).isSome = false →
      (MedicalBot.handle_chat patients chats uid message mode g gm true).1 = chats) ∧
    ((MedicalBot.handle_chat patients chats uid message mode g gm true).2 =
        mainShape (chatModeLabel mode) ((chatModeResponse mode g gm).getD "") ∨
      (MedicalBot.handle_chat patients chats uid message mode g gm true).2 =
        "❌ Error getting response. Please try again.") ∧
    (∀ (st : HakeemState) (fn text : String) (gK mK addOk : Bool) (g2 : GroqOutcome)
        (gm2 : GeminiOutcome) (now : Nat), pyBlank text = false →
      ((HakeemBot.handle_message st uid fn text gK mK g2 gm2 addOk true
            now).state.chats.length = st.chats.length + 1 ↔
        pyTruthy (MedicalEngine.respond gK mK g2 gm2).text = true)) := by
  refine ⟨?_, ?_, ?_, ?_⟩
  · by_cases hp : (PatientDatabase.get_patient patients uid).isSome <;>
      by_cases ht : pyTruthy (chatModeResponse mode g gm) <;>
        simp [MedicalBot.handle_chat, PatientDatabase.save_chat, hp, ht]
  · intro hp
    by_cases ht : pyTruthy (chatModeResponse mode g gm) <;>
      simp [MedicalBot.handle_chat, PatientDatabase.save_chat, hp, ht]
  · by_cases hp : (PatientDatabase.get_patient patients uid).isSome <;>
      by_cases ht : pyTruthy (chatModeResponse mode g gm) <;>
        simp [MedicalBot.handle_chat, PatientDatabase.save_chat, hp, ht]
  · intro st fn text gK mK addOk g2 gm2 now hb
    by_cases ht : pyTruthy (MedicalEngine.respond gK mK g2 gm2).text <;>
      simp [HakeemBot.handle_message, HakeemDatabase.save_chat, hb, ht]

/-- Witness for C9 amended at a concrete input: with no patient record
the chat table stays empty even though the provider answered. -/
theorem claim_C9_witness :
    (MedicalBot.handle_chat [] [] 5 "hello" ChatMode.groq (GroqOutcome.success "fine")
        GeminiOutcome.timeout true).1 = ([] : List ChatRow) :=
  (claim_C9_amended [] [] 5 "hello" ChatMode.groq (GroqOutcome.success "fine")
      GeminiOutcome.timeout).2.1 (by decide)

/-- C10 counterexample: add_user swallows storage exceptions, so when
the write fails the users table keeps the prior row and the stored
first_name is the stale Old, not the sender's current platform name New
supplied to the same handle_message call — refuting the unconditional
claim that the stored first_name always reflects the most recent name
and that created_at is reset on each message. -/
theorem claim_C10_counterexample :
    HakeemDatabase.add_user false [⟨1, "Old", 0⟩] 1 "New" 5 = [⟨1, "Old", 0⟩] ∧
    (HakeemBot.handle_message ⟨[⟨1, "Old", 0⟩], []⟩ 1 "New" "hi" false false
        GroqOutcome.timeout GeminiOutcome.timeout false true 0).state.users =
      [⟨1, "Old", 0⟩] ∧
    ("Old" : String) ≠ "New" := by
  decide

/-- C10 amended: every handled Hakeem text message and every /start
first call add_user with the sender's id and current first name; on a
successful write the users table holds exactly one row for that id,
carrying the just-supplied first name and a freshly reset created_at
default, while a swallowed storage error leaves the table unchanged (so
the stored first name can be stale); in either case the at most one row
per telegram id invariant is preserved. -/
theorem claim_C10_amended (users : List UserRow) (uid : Int) (name : String) (now : Nat)
    (st : HakeemState) (text : String) (gK mK : Bool) (g : GroqOutcome) (gm : GeminiOutcome)
    (addOk saveOk : Bool) :
    (HakeemBot.handle_message st uid name text gK mK g gm addOk saveOk now).state.users =
      HakeemDatabase.add_user addOk st.users uid name now ∧
    (HakeemBot.start_command users uid name addOk now).1 =
      HakeemDatabase.add_user addOk users uid name now ∧
    ((HakeemDatabase.add_user true users uid name now).filter
      fun r => r.telegram_id == uid) = [⟨uid, name, now⟩] ∧
    HakeemDatabase.add_user false users uid name now = users ∧
    (UsersUnique users → UsersUnique (HakeemDatabase.add_user addOk users uid name now)) := by
  refine ⟨?_, rfl, ?_, rfl, ?_⟩
  · unfold HakeemBot.handle_message
    by_cases hb : pyBlank text <;>
      by_cases ht : pyTruthy (MedicalEngine.respond gK mK g gm).text <;> simp [hb, ht]
  · unfold HakeemDatabase.add_user
    simp only [if_true]
    exact list_filter_key_replace UserRow.telegram_id users uid ⟨uid, name, now⟩ rfl
  · intro h
    unfold UsersUnique HakeemDatabase.add_user
    cases addOk with
    | false => exact h
    | true => exact pairwise_key_replace UserRow.telegram_id users uid ⟨uid, name, now⟩ rfl h

/-- Witness for C10 amended at a concrete input: starting from the empty
table the uniqueness invariant holds after a successful upsert. -/
theorem claim_C10_witness :
    UsersUnique (HakeemDatabase.add_user true [] 1 "Ali" 0) :=
  (claim_C10_amended [] 1 "Ali" 0 ⟨[], []⟩ "hi" true true GroqOutcome.timeout
      GeminiOutcome.timeout true true).2.2.2.2 List.Pairwise.nil
